import Mathlib

/-!
Shallow embedding of the profile-creation endpoint of this repository
(`src/routes/profiles.py` and `src/schemas/profiles.py`).

The endpoint `POST /users/\x7buser_id\x7d/profile/` is modelled as a pure
function from the request and the ambient collaborators (JWT manager,
S3 client, database session) to an outcome together with the final
database state and the list of objects uploaded to storage.

FastAPI resolves the dependencies of `create_user_profile` in the order
they are declared in its signature: first `data = Depends(ProfileCreateSchema.as_form)`,
then `payload = Depends(get_current_user_payload)`; a dependency that raises
`HTTPException` short-circuits the request there.  The handler body runs only
after all dependencies resolved.  The pipeline function below follows exactly
that order.

The `validation` module (validate_name, validate_gender, validate_birth_date,
validate_image) is imported by both source files but is not part of this
repository snapshot; it is therefore kept abstract as a structure of
pure checkers (each returns `none` on success or `some message` for the
`ValueError` it raises), with a concrete instance modelled from the spec
used for witnesses.
-/

namespace ProfileApp

/-- Python str.lower(): per-character lowering. -/
def pyLower (s : String) : String := ⟨s.data.map Char.toLower⟩

/-- Python str.strip(): remove leading and trailing whitespace. -/
def pyStrip (s : String) : String :=
  ⟨((s.data.dropWhile Char.isWhitespace).reverse.dropWhile Char.isWhitespace).reverse⟩

/-- Whether the first list is an initial run of the second. -/
def listStarts : List Char → List Char → Bool
  | [], _ => true
  | _ :: _, [] => false
  | p :: ps, c :: cs => p == c && listStarts ps cs

/-- Python str.startswith(pat). -/
def pyStartsWith (s pat : String) : Bool := listStarts pat.data s.data

/-- Split a character list at every occurrence of the separator,
keeping empty pieces, as Python str.split(sep) does for an explicit
separator. -/
def splitChars (sep : Char) : List Char → List (List Char)
  | [] => [[]]
  | c :: cs =>
    let rest := splitChars sep cs
    if c == sep then [] :: rest
    else
      match rest with
      | [] => [[c]]
      | r :: rs => (c :: r) :: rs

/-- Python str.split(" "). -/
def pySplitSpace (s : String) : List String :=
  (splitChars ' ' s.data).map String.mk

/-- A user row: the fields of `UserModel` the endpoint reads. -/
structure UserModel where
  id : Int
  is_active : Bool
  group_id : Int
deriving DecidableEq, Repr

/-- An uploaded multipart file: the avatar metadata plus its raw bytes. -/
structure UploadFile where
  content_type : String
  size : Nat
  bytes : List Nat
deriving DecidableEq, Repr

/-- A profile row, as built by `create_profile` (`UserProfileModel`). -/
structure UserProfileModel where
  id : Int
  user_id : Int
  first_name : String
  last_name : String
  gender : String
  date_of_birth : Int
  info : String
  avatar : String
deriving DecidableEq, Repr

/-- The database session: user rows, profile rows, the id the next insert
gets, and whether `commit` succeeds (`commitOk = false` models
`SQLAlchemyError` raised by `db.commit()`). -/
structure DB where
  users : List UserModel
  profiles : List UserProfileModel
  nextProfileId : Int
  commitOk : Bool
deriving DecidableEq, Repr

/-- The injected JWT manager: `decode_access_token` returns the claims
mapping, or `none` when the decode raises (expired, malformed, bad
signature).  Claims are a finite mapping from claim names to integers. -/
structure JWTManager where
  decode_access_token : String → Option (List (String × Int))

/-- The injected S3 storage client: whether `upload_file key bytes`
succeeds (`false` models `S3FileUploadError`), and `get_file_url`
resolving a storage key to a URL. -/
structure S3Client where
  uploadOk : String → List Nat → Bool
  get_file_url : String → String

/-- Modelled from the spec: the `validation` module is not under src/.
Each validator is a pure checker returning `none` on success or
`some message` for the message of the `ValueError` it raises
(name: charset/length policy; gender: enum membership; birth date:
plausibility; image: content type and size). -/
structure Validators where
  validate_name : String → Option String
  validate_gender : String → Option String
  validate_birth_date : Int → Option String
  validate_image : UploadFile → Option String

/-- The parsed multipart form of `ProfileCreateSchema`, after the
framework-level extraction of the typed fields (dates are abstracted
as integers). -/
structure ProfileCreateSchema where
  first_name : String
  last_name : String
  gender : String
  date_of_birth : Int
  info : String
  avatar : UploadFile
deriving DecidableEq, Repr

/-- An incoming request: the raw Authorization header (`none` when the
header is absent), the `user_id` path parameter (the target user), and
the framework-parsed form fields. -/
structure Request where
  authHeader : Option String
  user_id : Int
  form : ProfileCreateSchema
deriving DecidableEq, Repr

/-- An `HTTPException`: status code and a single detail message. -/
structure HTTPException where
  status : Nat
  detail : String
deriving DecidableEq, Repr

/-- The observable outcome of one request.  `created` is the 201 response
with the profile body; `httpError` an `HTTPException` with a message
detail; `validationFailure` the 422 `HTTPException` raised by `as_form`
whose detail is the list of per-field pydantic errors;
`persistenceFailure` the uncaught `SQLAlchemyError` re-raised by
`create_profile`. -/
inductive Outcome where
  | created (profile : UserProfileModel)
  | httpError (status : Nat) (detail : String)
  | validationFailure (status : Nat) (errors : List String)
  | persistenceFailure
deriving DecidableEq, Repr

/-- `get_current_user_payload` (src/routes/profiles.py:24-44): checks the
Authorization header and decodes the token.  A `None` header and an empty
string are both falsy in `if not auth_header`.  The token is
`auth_header.split(" ")[1]`, guaranteed to exist once the header starts
with the 7-character string Bearer-space. -/
def get_current_user_payload (jwt : JWTManager) (authHeader : Option String) :
    Except HTTPException (List (String × Int)) :=
  match authHeader with
  | none => .error ⟨401, "Authorization header is missing"⟩
  | some h =>
    if h = "" then .error ⟨401, "Authorization header is missing"⟩
    else if !(pyStartsWith h "Bearer ") then
      .error ⟨401, "Invalid Authorization header format. Expected \x27Bearer <token>\x27"⟩
    else
      match jwt.decode_access_token ((pySplitSpace h).getD 1 "") with
      | some payload => .ok payload
      | none => .error ⟨401, "Token has expired."⟩

/-- `create_profile` (src/routes/profiles.py:47-77): builds the row, adds
it, commits.  On `SQLAlchemyError` the transaction is rolled back (the
returned session state is the pre-add one) and the error re-raised
(`Except.error`); on success the committed session holds the new row. -/
def create_profile (db : DB) (user_id : Int) (first_name last_name gender : String)
    (date_of_birth : Int) (info avatar_url : String) :
    Except Unit UserProfileModel × DB :=
  let profile : UserProfileModel :=
    { id := db.nextProfileId, user_id := user_id, first_name := first_name,
      last_name := last_name, gender := gender, date_of_birth := date_of_birth,
      info := info, avatar := avatar_url }
  if db.commitOk then
    (.ok profile,
     { db with profiles := db.profiles ++ [profile],
               nextProfileId := db.nextProfileId + 1 })
  else
    (.error (), db)

/-- `get_user_by_id` (src/routes/profiles.py:80-84): `SELECT ... WHERE id == x`.
The handler passes `payload.get("user_id")`, which may be `None`; the SQL
comparison with NULL matches no row, so the argument is an `Option Int`
and a `none` id finds nothing. -/
def get_user_by_id (db : DB) (user_id : Option Int) : Option UserModel :=
  db.users.find? (fun u => user_id == some u.id)

/-- The pydantic `info` field validator (src/schemas/profiles.py:41-46):
rejects an empty or whitespace-only value. -/
def validate_info (value : String) : Option String :=
  if pyStrip value = "" then some "Info field cannot be empty or contain only spaces."
  else none

/-- The per-field pydantic errors collected when `ProfileCreateSchema` is
constructed: pydantic runs every field validator and aggregates the
errors in field order (src/schemas/profiles.py:23-53). -/
def schemaErrors (v : Validators) (s : ProfileCreateSchema) : List String :=
  (v.validate_name s.first_name).toList ++
  (v.validate_name s.last_name).toList ++
  (v.validate_gender s.gender).toList ++
  (v.validate_birth_date s.date_of_birth).toList ++
  (validate_info s.info).toList ++
  (v.validate_image s.avatar).toList

/-- `ProfileCreateSchema.as_form` (src/schemas/profiles.py:55-90):
constructs the schema; on `ValidationError` it re-raises as an
`HTTPException` 422 whose detail is the list of per-field errors. -/
def as_form (v : Validators) (s : ProfileCreateSchema) :
    Except (List String) ProfileCreateSchema :=
  if schemaErrors v s = [] then .ok s else .error (schemaErrors v s)

/-- The storage key `avatars/\x7buser_id\x7d_avatar.jpg` built at
src/routes/profiles.py:101. -/
def avatar_key_for (uid : Int) : String :=
  "avatars/" ++ toString uid ++ "_avatar.jpg"

/-- The body of `create_user_profile` (src/routes/profiles.py:99-166),
entered once every dependency resolved: re-validate the image and upload
it (422 on `ValueError`, 500 on `S3FileUploadError`), resolve the acting
user (401), authorization check (403), duplicate-profile check (400),
resolve the target user (401 when missing or inactive), insert, then
replace the stored key with the resolved URL in the response.  The third
component of the result lists the objects written to storage. -/
def handler_body (v : Validators) (s3 : S3Client) (db : DB) (req : Request)
    (data : ProfileCreateSchema) (payload : List (String × Int)) :
    Outcome × DB × List (String × List Nat) :=
  let current_user_id : Option Int := payload.lookup "user_id"
  let avatar_key := avatar_key_for req.user_id
  match v.validate_image data.avatar with
  | some msg => (.httpError 422 msg, db, [])
  | none =>
    if !(s3.uploadOk avatar_key data.avatar.bytes) then
      (.httpError 500 "Failed to upload avatar. Please try again later.", db, [])
    else
      let uploads := [(avatar_key, data.avatar.bytes)]
      match get_user_by_id db current_user_id with
      | none => (.httpError 401 "User not found or not active.", db, uploads)
      | some current_user =>
        let is_admin := current_user.group_id == 3
        if (current_user_id != some req.user_id) && !is_admin then
          (.httpError 403 "You don\x27t have permission to edit this profile.", db, uploads)
        else if (db.profiles.find? (fun p => p.user_id == req.user_id)).isSome then
          (.httpError 400 "User already has a profile.", db, uploads)
        else
          match get_user_by_id db (some req.user_id) with
          | none => (.httpError 401 "User not found or not active.", db, uploads)
          | some user =>
            if !user.is_active then
              (.httpError 401 "User not found or not active.", db, uploads)
            else
              match create_profile db req.user_id (pyLower data.first_name)
                  (pyLower data.last_name) data.gender data.date_of_birth
                  (pyStrip data.info) avatar_key with
              | (.error _, db2) => (.persistenceFailure, db2, uploads)
              | (.ok profile, db2) =>
                (.created { profile with avatar := s3.get_file_url profile.avatar },
                 db2, uploads)

/-- The whole request pipeline for `POST /users/\x7buser_id\x7d/profile/`:
FastAPI solves the `as_form` dependency first, then
`get_current_user_payload`, each short-circuiting on `HTTPException`;
the handler body runs last. -/
def create_user_profile (v : Validators) (jwt : JWTManager) (s3 : S3Client)
    (db : DB) (req : Request) : Outcome × DB × List (String × List Nat) :=
  match as_form v req.form with
  | .error errs => (.validationFailure 422 errs, db, [])
  | .ok data =>
    match get_current_user_payload jwt req.authHeader with
    | .error e => (.httpError e.status e.detail, db, [])
    | .ok payload => handler_body v s3 db req data payload

/-- Modelled from the spec: a concrete `Validators` instance for the
missing `validation` module, used by witnesses.  Name: non-empty,
bounded length, alphabetic charset; gender: membership in a fixed
enumeration; birth date: not in the future and no implausible age
(dates are day numbers against a fixed reference day); image: accepted
content type and a size limit. -/
def specValidators : Validators where
  validate_name := fun s =>
    if s = "" ∨ 60 < s.data.length ∨ !(s.data.all Char.isAlpha) then some "Invalid name format."
    else none
  validate_gender := fun g =>
    if g = "male" ∨ g = "female" ∨ g = "other" then none
    else some "Gender must be one of the allowed values."
  validate_birth_date := fun d =>
    if 20000 < d ∨ d + 43800 < 20000 then some "Invalid birth date."
    else none
  validate_image := fun img =>
    if (img.content_type = "image/jpeg" ∨ img.content_type = "image/png")
        ∧ img.size ≤ 1000000 then none
    else some "Invalid image format or size."

/-- A valid JPEG avatar used by concrete scenarios. -/
def wImage : UploadFile :=
  { content_type := "image/jpeg", size := 1000, bytes := [1, 2, 3] }

/-- A fully valid form used by concrete scenarios (note the mixed-case
names and the padded info field). -/
def wForm : ProfileCreateSchema :=
  { first_name := "Alice", last_name := "Smith", gender := "female",
    date_of_birth := 10000, info := "  hello  ", avatar := wImage }

/-- A JWT manager that decodes the token tok42 to claims for user 42 and
the token tokseven to claims for user 7, rejects every other token, and
one token (toknone) decodes to a claims mapping with no user_id entry. -/
def wJwt : JWTManager :=
  { decode_access_token := fun t =>
      if t = "tok42" then some [("user_id", 42)]
      else if t = "tokseven" then some [("user_id", 7)]
      else if t = "toknone" then some [("exp", 99)]
      else if t = "toknine" then some [("user_id", 9)]
      else none }

/-- An S3 client whose uploads always succeed and whose URL resolution
makes the key addressable on a CDN host. -/
def wS3 : S3Client :=
  { uploadOk := fun _ _ => true,
    get_file_url := fun k => "https://cdn.example.test/" ++ k }

/-- An S3 client whose uploads always fail. -/
def wS3down : S3Client :=
  { uploadOk := fun _ _ => false,
    get_file_url := fun k => "https://cdn.example.test/" ++ k }

/-- The target user of the concrete scenarios: active, not an admin. -/
def wUser42 : UserModel := { id := 42, is_active := true, group_id := 1 }

/-- Another non-admin user, acting on behalf of user 42 in the 403
scenarios. -/
def wUser7 : UserModel := { id := 7, is_active := true, group_id := 1 }

/-- A database holding the two users, no profiles, with commits
succeeding. -/
def wDb : DB :=
  { users := [wUser42, wUser7], profiles := [], nextProfileId := 1, commitOk := true }

/-- A fully valid request: user 42 creating their own profile. -/
def wReq : Request :=
  { authHeader := some "Bearer tok42", user_id := 42, form := wForm }

/-- When the pydantic validation of the whole form succeeds, the image
validator in particular accepted the avatar (so the handler body's
re-validation of the image cannot fail). -/
theorem validate_image_of_schemaOk (v : Validators) (s : ProfileCreateSchema)
    (h : schemaErrors v s = []) : v.validate_image s.avatar = none := by
  unfold schemaErrors at h
  rcases List.append_eq_nil.mp h with ⟨-, h2⟩
  cases hv : v.validate_image s.avatar
  · rfl
  · rw [hv] at h2; simp at h2

/-- C1: the handler executes its steps in the fixed order the spec gives
and maps each failure to the stated status, every step terminal on
failure: form-validation failure is a 422 carrying the per-field errors
(nothing later runs: the database is untouched and nothing is stored);
once the form is valid and the auth dependency resolved, a failing
avatar upload under the key avatars/\x7btargetUserId\x7d_avatar.jpg is a
terminal 500; an unresolvable acting user a terminal 401; a caller that
is neither the target user nor an admin a terminal 403; an existing
profile for the target user a terminal 400; a missing or inactive
target user a terminal 401; a persistence failure propagates uncaught
(rolled back, database unchanged); on success the 201 body carries the
resolved URL in place of the avatar key.  The pipeline is a function,
so at most one outcome occurs per request. -/
theorem create_user_profile_fixed_order (v : Validators) (jwt : JWTManager)
    (s3 : S3Client) (db : DB) (req : Request) :
    (schemaErrors v req.form ≠ [] →
      create_user_profile v jwt s3 db req =
        (.validationFailure 422 (schemaErrors v req.form), db, [])) ∧
    (∀ payload, schemaErrors v req.form = [] →
      get_current_user_payload jwt req.authHeader = .ok payload →
      s3.uploadOk (avatar_key_for req.user_id) req.form.avatar.bytes = false →
      create_user_profile v jwt s3 db req =
        (.httpError 500 "Failed to upload avatar. Please try again later.", db, [])) ∧
    (∀ payload, schemaErrors v req.form = [] →
      get_current_user_payload jwt req.authHeader = .ok payload →
      s3.uploadOk (avatar_key_for req.user_id) req.form.avatar.bytes = true →
      get_user_by_id db (payload.lookup "user_id") = none →
      create_user_profile v jwt s3 db req =
        (.httpError 401 "User not found or not active.", db,
         [(avatar_key_for req.user_id, req.form.avatar.bytes)])) ∧
    (∀ payload cu, schemaErrors v req.form = [] →
      get_current_user_payload jwt req.authHeader = .ok payload →
      s3.uploadOk (avatar_key_for req.user_id) req.form.avatar.bytes = true →
      get_user_by_id db (payload.lookup "user_id") = some cu →
      ((payload.lookup "user_id" != some req.user_id) && !(cu.group_id == 3)) = true →
      create_user_profile v jwt s3 db req =
        (.httpError 403 "You don\x27t have permission to edit this profile.", db,
         [(avatar_key_for req.user_id, req.form.avatar.bytes)])) ∧
    (∀ payload cu, schemaErrors v req.form = [] →
      get_current_user_payload jwt req.authHeader = .ok payload →
      s3.uploadOk (avatar_key_for req.user_id) req.form.avatar.bytes = true →
      get_user_by_id db (payload.lookup "user_id") = some cu →
      ((payload.lookup "user_id" != some req.user_id) && !(cu.group_id == 3)) = false →
      (db.profiles.find? (fun p => p.user_id == req.user_id)).isSome = true →
      create_user_profile v jwt s3 db req =
        (.httpError 400 "User already has a profile.", db,
         [(avatar_key_for req.user_id, req.form.avatar.bytes)])) ∧
    (∀ payload cu, schemaErrors v req.form = [] →
      get_current_user_payload jwt req.authHeader = .ok payload →
      s3.uploadOk (avatar_key_for req.user_id) req.form.avatar.bytes = true →
      get_user_by_id db (payload.lookup "user_id") = some cu →
      ((payload.lookup "user_id" != some req.user_id) && !(cu.group_id == 3)) = false →
      db.profiles.find? (fun p => p.user_id == req.user_id) = none →
      get_user_by_id db (some req.user_id) = none →
      create_user_profile v jwt s3 db req =
        (.httpError 401 "User not found or not active.", db,
         [(avatar_key_for req.user_id, req.form.avatar.bytes)])) ∧
    (∀ payload cu u, schemaErrors v req.form = [] →
      get_current_user_payload jwt req.authHeader = .ok payload →
      s3.uploadOk (avatar_key_for req.user_id) req.form.avatar.bytes = true →
      get_user_by_id db (payload.lookup "user_id") = some cu →
      ((payload.lookup "user_id" != some req.user_id) && !(cu.group_id == 3)) = false →
      db.profiles.find? (fun p => p.user_id == req.user_id) = none →
      get_user_by_id db (some req.user_id) = some u →
      u.is_active = false →
      create_user_profile v jwt s3 db req =
        (.httpError 401 "User not found or not active.", db,
         [(avatar_key_for req.user_id, req.form.avatar.bytes)])) ∧
    (∀ payload cu u, schemaErrors v req.form = [] →
      get_current_user_payload jwt req.authHeader = .ok payload →
      s3.uploadOk (avatar_key_for req.user_id) req.form.avatar.bytes = true →
      get_user_by_id db (payload.lookup "user_id") = some cu →
      ((payload.lookup "user_id" != some req.user_id) && !(cu.group_id == 3)) = false →
      db.profiles.find? (fun p => p.user_id == req.user_id) = none →
      get_user_by_id db (some req.user_id) = some u →
      u.is_active = true →
      db.commitOk = false →
      create_user_profile v jwt s3 db req =
        (.persistenceFailure, db,
         [(avatar_key_for req.user_id, req.form.avatar.bytes)])) ∧
    (∀ payload cu u, schemaErrors v req.form = [] →
      get_current_user_payload jwt req.authHeader = .ok payload →
      s3.uploadOk (avatar_key_for req.user_id) req.form.avatar.bytes = true →
      get_user_by_id db (payload.lookup "user_id") = some cu →
      ((payload.lookup "user_id" != some req.user_id) && !(cu.group_id == 3)) = false →
      db.profiles.find? (fun p => p.user_id == req.user_id) = none →
      get_user_by_id db (some req.user_id) = some u →
      u.is_active = true →
      db.commitOk = true →
      create_user_profile v jwt s3 db req =
        (.created { id := db.nextProfileId, user_id := req.user_id,
                    first_name := pyLower req.form.first_name,
                    last_name := pyLower req.form.last_name,
                    gender := req.form.gender,
                    date_of_birth := req.form.date_of_birth,
                    info := pyStrip req.form.info,
                    avatar := s3.get_file_url (avatar_key_for req.user_id) },
         { db with profiles := db.profiles ++
                     [{ id := db.nextProfileId, user_id := req.user_id,
                        first_name := pyLower req.form.first_name,
                        last_name := pyLower req.form.last_name,
                        gender := req.form.gender,
                        date_of_birth := req.form.date_of_birth,
                        info := pyStrip req.form.info,
                        avatar := avatar_key_for req.user_id }],
                   nextProfileId := db.nextProfileId + 1 },
         [(avatar_key_for req.user_id, req.form.avatar.bytes)])) := by
  refine ⟨?_, ?_, ?_, ?_, ?_, ?_, ?_, ?_, ?_⟩
  · intro h
    simp [create_user_profile, as_form, h]
  · intro payload hform hauth hup
    have himg := validate_image_of_schemaOk v req.form hform
    simp [create_user_profile, as_form, hform, hauth, handler_body, himg, hup]
  · intro payload hform hauth hup hcu
    have himg := validate_image_of_schemaOk v req.form hform
    simp [create_user_profile, as_form, hform, hauth, handler_body, himg, hup, hcu]
  · intro payload cu hform hauth hup hcu hperm
    have himg := validate_image_of_schemaOk v req.form hform
    simp [create_user_profile, as_form, hform, hauth, handler_body, himg, hup, hcu, hperm]
  · intro payload cu hform hauth hup hcu hperm hdup
    have himg := validate_image_of_schemaOk v req.form hform
    simp [create_user_profile, as_form, hform, hauth, handler_body, himg, hup, hcu, hperm, hdup]
  · intro payload cu hform hauth hup hcu hperm hdup htgt
    have himg := validate_image_of_schemaOk v req.form hform
    simp [create_user_profile, as_form, hform, hauth, handler_body, himg, hup, hcu, hperm, hdup,
          htgt]
  · intro payload cu u hform hauth hup hcu hperm hdup htgt hact
    have himg := validate_image_of_schemaOk v req.form hform
    simp [create_user_profile, as_form, hform, hauth, handler_body, himg, hup, hcu, hperm, hdup,
          htgt, hact]
  · intro payload cu u hform hauth hup hcu hperm hdup htgt hact hcommit
    have himg := validate_image_of_schemaOk v req.form hform
    simp [create_user_profile, as_form, hform, hauth, handler_body, himg, hup, hcu, hperm, hdup,
          htgt, hact, create_profile, hcommit]
  · intro payload cu u hform hauth hup hcu hperm hdup htgt hact hcommit
    have himg := validate_image_of_schemaOk v req.form hform
    simp [create_user_profile, as_form, hform, hauth, handler_body, himg, hup, hcu, hperm, hdup,
          htgt, hact, create_profile, hcommit]

/-- C1 witness: the fixed-order theorem applied at the concrete valid
scenario (user 42 creating their own profile) and at the concrete
upload-failure scenario. -/
theorem create_user_profile_fixed_order_witness :
    schemaErrors specValidators wReq.form = [] ∧
    create_user_profile specValidators wJwt wS3 wDb wReq =
      (.created { id := 1, user_id := 42, first_name := "alice", last_name := "smith",
                  gender := "female", date_of_birth := 10000, info := "hello",
                  avatar := "https://cdn.example.test/avatars/42_avatar.jpg" },
       { users := [wUser42, wUser7],
         profiles := [{ id := 1, user_id := 42, first_name := "alice",
                        last_name := "smith", gender := "female",
                        date_of_birth := 10000, info := "hello",
                        avatar := "avatars/42_avatar.jpg" }],
         nextProfileId := 2, commitOk := true },
       [("avatars/42_avatar.jpg", [1, 2, 3])]) ∧
    create_user_profile specValidators wJwt wS3down wDb wReq =
      (.httpError 500 "Failed to upload avatar. Please try again later.", wDb, []) := by
  refine ⟨by decide, ?_, ?_⟩
  · have h := (create_user_profile_fixed_order specValidators wJwt wS3 wDb
      wReq).2.2.2.2.2.2.2.2 [("user_id", 42)] wUser42 wUser42
      (by decide) (by rfl) (by rfl) (by rfl) (by decide) (by rfl) (by rfl)
      (by rfl) (by rfl)
    exact h.trans (by decide)
  · have h := (create_user_profile_fixed_order specValidators wJwt wS3down wDb
      wReq).2.1 [("user_id", 42)]
      (by decide) (by rfl) (by rfl)
    exact h.trans (by decide)

/-- C6: the authenticator fails with 401 for a missing header (absent or
empty, both falsy) and for any header not of the Bearer-space form; any
decode failure is a 401 whose surfaced detail is the expired-token
message regardless of cause; a token that decodes successfully yields
the decoded claims unchanged. -/
theorem get_current_user_payload_contract (jwt : JWTManager) :
    (get_current_user_payload jwt none =
      .error ⟨401, "Authorization header is missing"⟩) ∧
    (get_current_user_payload jwt (some "") =
      .error ⟨401, "Authorization header is missing"⟩) ∧
    (∀ h, h ≠ "" → pyStartsWith h "Bearer " = false →
      get_current_user_payload jwt (some h) =
        .error ⟨401, "Invalid Authorization header format. Expected \x27Bearer <token>\x27"⟩) ∧
    (∀ h, pyStartsWith h "Bearer " = true →
      jwt.decode_access_token ((pySplitSpace h).getD 1 "") = none →
      get_current_user_payload jwt (some h) = .error ⟨401, "Token has expired."⟩) ∧
    (∀ h payload, pyStartsWith h "Bearer " = true →
      jwt.decode_access_token ((pySplitSpace h).getD 1 "") = some payload →
      get_current_user_payload jwt (some h) = .ok payload) := by
  refine ⟨rfl, rfl, ?_, ?_, ?_⟩
  · intro h hne hbs
    simp [get_current_user_payload, hne, hbs]
  · intro h hbs hdec
    have hne : ¬ h = "" := by
      intro he; subst he; exact absurd hbs (by decide)
    simp only [List.getD, List.get?_eq_getElem?] at hdec
    simp [get_current_user_payload, hne, hbs, hdec]
  · intro h payload hbs hdec
    have hne : ¬ h = "" := by
      intro he; subst he; exact absurd hbs (by decide)
    simp only [List.getD, List.get?_eq_getElem?] at hdec
    simp [get_current_user_payload, hne, hbs, hdec]

/-- C6 witness: the authenticator contract applied to a malformed header,
to a token that fails to decode, and to a token that decodes. -/
theorem get_current_user_payload_contract_witness :
    get_current_user_payload wJwt (some "Token abc") =
      .error ⟨401, "Invalid Authorization header format. Expected \x27Bearer <token>\x27"⟩ ∧
    get_current_user_payload wJwt (some "Bearer bad") =
      .error ⟨401, "Token has expired."⟩ ∧
    get_current_user_payload wJwt (some "Bearer tok42") = .ok [("user_id", 42)] :=
  ⟨(get_current_user_payload_contract wJwt).2.2.1 "Token abc" (by decide) (by decide),
   (get_current_user_payload_contract wJwt).2.2.2.1 "Bearer bad" (by decide) (by rfl),
   (get_current_user_payload_contract wJwt).2.2.2.2 "Bearer tok42" [("user_id", 42)]
     (by decide) (by rfl)⟩

/-- Every failure of the authenticator carries status 401, whatever its
cause. -/
theorem get_current_user_payload_error_401 (jwt : JWTManager) (h : Option String)
    (e : HTTPException) (he : get_current_user_payload jwt h = .error e) :
    e.status = 401 := by
  rcases h with _ | s
  · unfold get_current_user_payload at he
    simp only [Except.error.injEq] at he; rw [← he]
  · unfold get_current_user_payload at he
    repeat' split at he
    all_goals first
      | (simp only [Except.error.injEq] at he; rw [← he])
      | simp at he

/-- A request carrying no Authorization header together with a
whitespace-only info field. -/
def reqNoAuthBadInfo : Request :=
  { authHeader := none, user_id := 42, form := { wForm with info := "   " } }

/-- C2 counterexample: a request with a missing Authorization header whose
info field is whitespace-only is answered 422 (the form dependency runs,
and fails, before the auth dependency), not 401. -/
theorem auth_not_first_counterexample :
    reqNoAuthBadInfo.authHeader = none ∧
    create_user_profile specValidators wJwt wS3 wDb reqNoAuthBadInfo =
      (.validationFailure 422 ["Info field cannot be empty or contain only spaces."],
       wDb, []) := ⟨rfl, by decide⟩

/-- C2 amended: for every request whose Authorization header is missing,
malformed, or carries an undecodable token, provided the form fields
pass validation, the response is 401 and is produced before the avatar
upload and every later step (nothing is stored, the database is
untouched); when form validation fails, the response is 422 instead,
because the form dependency is resolved before the auth dependency. -/
theorem auth_401_when_form_valid (v : Validators) (jwt : JWTManager) (s3 : S3Client)
    (db : DB) (req : Request) (e : HTTPException)
    (hform : schemaErrors v req.form = [])
    (hauth : get_current_user_payload jwt req.authHeader = .error e) :
    e.status = 401 ∧
    create_user_profile v jwt s3 db req = (.httpError 401 e.detail, db, []) := by
  have h401 := get_current_user_payload_error_401 jwt req.authHeader e hauth
  refine ⟨h401, ?_⟩
  rw [← h401]
  simp [create_user_profile, as_form, hform, hauth]

/-- C2 amended witness: a valid form with a missing header gets the 401
with the missing-header detail. -/
theorem auth_401_when_form_valid_witness :
    schemaErrors specValidators wForm = [] ∧
    get_current_user_payload wJwt none =
      .error ⟨401, "Authorization header is missing"⟩ ∧
    create_user_profile specValidators wJwt wS3 wDb
      { authHeader := none, user_id := 42, form := wForm } =
      (.httpError 401 "Authorization header is missing", wDb, []) :=
  ⟨by decide, rfl,
   (auth_401_when_form_valid specValidators wJwt wS3 wDb
     { authHeader := none, user_id := 42, form := wForm }
     ⟨401, "Authorization header is missing"⟩ (by decide) rfl).2⟩

/-- A request from user 7 (a non-admin) targeting user 42, with a
whitespace-only info field. -/
def reqActing7BadInfo : Request :=
  { authHeader := some "Bearer tokseven", user_id := 42,
    form := { wForm with info := " \t " } }

/-- C3 counterexample: the acting user (7) is neither the target (42) nor
an admin, yet the response is 422, not 403, because the invalid form
field is rejected before the authorization check runs. -/
theorem forbidden_counterexample :
    get_current_user_payload wJwt (some "Bearer tokseven") = .ok [("user_id", 7)] ∧
    wUser7.group_id ≠ 3 ∧
    ((7 : Int) : Int) ≠ 42 ∧
    create_user_profile specValidators wJwt wS3 wDb reqActing7BadInfo =
      (.validationFailure 422 ["Info field cannot be empty or contain only spaces."],
       wDb, []) :=
  ⟨rfl, by decide, by decide, by decide⟩

/-- C3 amended: when the acting user differs from the target and is not
in the admin group (3), the response is 403 provided the form fields
pass validation and the avatar upload succeeds; when the form fields
are invalid the response is 422 instead, since form validation precedes
the authorization check. -/
theorem forbidden_when_not_self_not_admin (v : Validators) (jwt : JWTManager)
    (s3 : S3Client) (db : DB) (req : Request) (payload : List (String × Int))
    (cu : UserModel)
    (hform : schemaErrors v req.form = [])
    (hauth : get_current_user_payload jwt req.authHeader = .ok payload)
    (hup : s3.uploadOk (avatar_key_for req.user_id) req.form.avatar.bytes = true)
    (hcu : get_user_by_id db (payload.lookup "user_id") = some cu)
    (hne : payload.lookup "user_id" ≠ some req.user_id)
    (hadmin : cu.group_id ≠ 3) :
    create_user_profile v jwt s3 db req =
      (.httpError 403 "You don\x27t have permission to edit this profile.", db,
       [(avatar_key_for req.user_id, req.form.avatar.bytes)]) := by
  have himg := validate_image_of_schemaOk v req.form hform
  have hperm : ((payload.lookup "user_id" != some req.user_id)
      && !(cu.group_id == 3)) = true := by
    simp [hne, hadmin]
  simp [create_user_profile, as_form, hform, hauth, handler_body, himg, hup, hcu, hperm]

/-- C3 amended witness: user 7 with a fully valid form targeting user 42
receives the 403. -/
theorem forbidden_when_not_self_not_admin_witness :
    schemaErrors specValidators wForm = [] ∧
    create_user_profile specValidators wJwt wS3 wDb
      { authHeader := some "Bearer tokseven", user_id := 42, form := wForm } =
      (.httpError 403 "You don\x27t have permission to edit this profile.", wDb,
       [("avatars/42_avatar.jpg", [1, 2, 3])]) := by
  refine ⟨by decide, ?_⟩
  have h := forbidden_when_not_self_not_admin specValidators wJwt wS3 wDb
    { authHeader := some "Bearer tokseven", user_id := 42, form := wForm }
    [("user_id", 7)] wUser7 (by decide) (by rfl) (by rfl) (by rfl)
    (by decide) (by decide)
  exact h.trans (by decide)

/-- C4: for a fully valid request (valid token whose user id equals the
target, active target user, no existing profile, valid fields,
successful upload and commit), the response is the 201 created body
echoing the submitted fields with both names lower-cased, info stripped
of surrounding whitespace, and the avatar field holding the URL the
storage client resolves from the key avatars/\x7buser_id\x7d_avatar.jpg
rather than the key stored in the row. -/
theorem created_response_echoes_fields (v : Validators) (jwt : JWTManager)
    (s3 : S3Client) (db : DB) (req : Request) (payload : List (String × Int))
    (u : UserModel)
    (hform : schemaErrors v req.form = [])
    (hauth : get_current_user_payload jwt req.authHeader = .ok payload)
    (hid : payload.lookup "user_id" = some req.user_id)
    (hup : s3.uploadOk (avatar_key_for req.user_id) req.form.avatar.bytes = true)
    (hu : get_user_by_id db (some req.user_id) = some u)
    (hact : u.is_active = true)
    (hdup : db.profiles.find? (fun p => p.user_id == req.user_id) = none)
    (hcommit : db.commitOk = true) :
    create_user_profile v jwt s3 db req =
      (.created { id := db.nextProfileId, user_id := req.user_id,
                  first_name := pyLower req.form.first_name,
                  last_name := pyLower req.form.last_name,
                  gender := req.form.gender,
                  date_of_birth := req.form.date_of_birth,
                  info := pyStrip req.form.info,
                  avatar := s3.get_file_url (avatar_key_for req.user_id) },
       { db with profiles := db.profiles ++
                   [{ id := db.nextProfileId, user_id := req.user_id,
                      first_name := pyLower req.form.first_name,
                      last_name := pyLower req.form.last_name,
                      gender := req.form.gender,
                      date_of_birth := req.form.date_of_birth,
                      info := pyStrip req.form.info,
                      avatar := avatar_key_for req.user_id }],
                 nextProfileId := db.nextProfileId + 1 },
       [(avatar_key_for req.user_id, req.form.avatar.bytes)]) := by
  have himg := validate_image_of_schemaOk v req.form hform
  have hcu : get_user_by_id db (payload.lookup "user_id") = some u := by
    rw [hid]; exact hu
  have hperm : ((payload.lookup "user_id" != some req.user_id)
      && !(u.group_id == 3)) = false := by
    simp [hid]
  simp [create_user_profile, as_form, hform, hauth, handler_body, himg, hup, hcu, hperm,
        hdup, hu, hact, create_profile, hcommit]

/-- C4 witness: user 42 creating their own profile with mixed-case names
and padded info gets the 201 body with names lower-cased, info trimmed,
and the avatar URL resolved from the key. -/
theorem created_response_echoes_fields_witness :
    schemaErrors specValidators wForm = [] ∧
    wUser42.is_active = true ∧
    create_user_profile specValidators wJwt wS3 wDb wReq =
      (.created { id := 1, user_id := 42, first_name := "alice", last_name := "smith",
                  gender := "female", date_of_birth := 10000, info := "hello",
                  avatar := "https://cdn.example.test/avatars/42_avatar.jpg" },
       { users := [wUser42, wUser7],
         profiles := [{ id := 1, user_id := 42, first_name := "alice",
                        last_name := "smith", gender := "female",
                        date_of_birth := 10000, info := "hello",
                        avatar := "avatars/42_avatar.jpg" }],
         nextProfileId := 2, commitOk := true },
       [("avatars/42_avatar.jpg", [1, 2, 3])]) := by
  refine ⟨by decide, by decide, ?_⟩
  have h := created_response_echoes_fields specValidators wJwt wS3 wDb wReq
    [("user_id", 42)] wUser42 (by decide) (by rfl) (by rfl) (by rfl) (by rfl)
    (by rfl) (by rfl) (by rfl)
  exact h.trans (by decide)

/-- C7: a commit failure makes `create_profile` roll the transaction back
(the returned session state is exactly the incoming one: no partial
write is visible) and re-raise the storage error; through the handler
the error propagates uncaught as the persistence failure, with the
database unchanged. -/
theorem create_profile_rollback_on_commit_failure (db : DB)
    (h : db.commitOk = false) :
    (∀ uid fn ln g dob info url,
      create_profile db uid fn ln g dob info url = (.error (), db)) ∧
    (∀ v jwt s3 req payload cu u,
      schemaErrors v (Request.form req) = [] →
      get_current_user_payload jwt (Request.authHeader req) = .ok payload →
      s3.uploadOk (avatar_key_for (Request.user_id req))
        (Request.form req).avatar.bytes = true →
      get_user_by_id db (payload.lookup "user_id") = some cu →
      ((payload.lookup "user_id" != some (Request.user_id req))
        && !(UserModel.group_id cu == 3)) = false →
      db.profiles.find? (fun p => p.user_id == Request.user_id req) = none →
      get_user_by_id db (some (Request.user_id req)) = some u →
      UserModel.is_active u = true →
      create_user_profile v jwt s3 db req =
        (.persistenceFailure, db,
         [(avatar_key_for (Request.user_id req), (Request.form req).avatar.bytes)])) := by
  constructor
  · intro uid fn ln g dob info url
    simp [create_profile, h]
  · intro v jwt s3 req payload cu u hform hauth hup hcu hperm hdup htgt hact
    have himg := validate_image_of_schemaOk v req.form hform
    simp [create_user_profile, as_form, hform, hauth, handler_body, himg, hup, hcu, hperm,
          hdup, htgt, hact, create_profile, h]

/-- C7 witness: with commits failing, the concrete valid request ends in
the propagated persistence failure and the database is unchanged. -/
theorem create_profile_rollback_on_commit_failure_witness :
    create_profile { wDb with commitOk := false } 42 "alice" "smith" "female"
      10000 "hello" "avatars/42_avatar.jpg" =
      (.error (), { wDb with commitOk := false }) ∧
    create_user_profile specValidators wJwt wS3 { wDb with commitOk := false } wReq =
      (.persistenceFailure, { wDb with commitOk := false },
       [("avatars/42_avatar.jpg", [1, 2, 3])]) := by
  have h := create_profile_rollback_on_commit_failure
    { wDb with commitOk := false } (by rfl)
  refine ⟨h.1 42 "alice" "smith" "female" 10000 "hello" "avatars/42_avatar.jpg", ?_⟩
  have h2 := h.2 specValidators wJwt wS3 wReq [("user_id", 42)] wUser42 wUser42
    (by decide) (by rfl) (by rfl) (by rfl) (by decide) (by rfl) (by rfl) (by rfl)
  exact h2.trans (by decide)

/-- C9: whenever the info field is empty or whitespace-only, the
dedicated pydantic info validator fires: its message appears among the
aggregated per-field errors, form parsing fails, and the response is
the 422 carrying that error list (nothing later runs). -/
theorem info_whitespace_rejected (v : Validators) (jwt : JWTManager) (s3 : S3Client)
    (db : DB) (req : Request)
    (h : pyStrip req.form.info = "") :
    "Info field cannot be empty or contain only spaces." ∈ schemaErrors v req.form ∧
    create_user_profile v jwt s3 db req =
      (.validationFailure 422 (schemaErrors v req.form), db, []) := by
  have hmem : "Info field cannot be empty or contain only spaces."
      ∈ schemaErrors v req.form := by
    simp [schemaErrors, validate_info, h]
  refine ⟨hmem, ?_⟩
  have hne : schemaErrors v req.form ≠ [] := by
    intro hnil; rw [hnil] at hmem; exact absurd hmem (List.not_mem_nil _)
  simp [create_user_profile, as_form, hne]

/-- C9 witness: a tab-and-space info field at an otherwise fully valid
request yields the 422 with exactly the info error. -/
theorem info_whitespace_rejected_witness :
    pyStrip "\t  " = "" ∧
    create_user_profile specValidators wJwt wS3 wDb
      { authHeader := some "Bearer tok42", user_id := 42,
        form := { wForm with info := "\t  " } } =
      (.validationFailure 422 ["Info field cannot be empty or contain only spaces."],
       wDb, []) := by
  refine ⟨by decide, ?_⟩
  have h := info_whitespace_rejected specValidators wJwt wS3 wDb
    { authHeader := some "Bearer tok42", user_id := 42,
      form := { wForm with info := "\t  " } } (by decide)
  exact h.2.trans (by decide)

/-- The acting-user lookup with a NULL id matches no row. -/
theorem get_user_by_id_none (db : DB) : get_user_by_id db none = none := by
  unfold get_user_by_id
  exact List.find?_eq_none.mpr (fun a _ => by simp)

/-- C10: a token that decodes to a claims mapping with no user_id entry
does not crash the handler: the acting-user lookup runs with a null id,
matches no row, and the response is the 401 with detail
User not found or not active. -/
theorem missing_user_id_claim_yields_401 (v : Validators) (jwt : JWTManager)
    (s3 : S3Client) (db : DB) (req : Request) (payload : List (String × Int))
    (hform : schemaErrors v req.form = [])
    (hauth : get_current_user_payload jwt req.authHeader = .ok payload)
    (hnone : payload.lookup "user_id" = none)
    (hup : s3.uploadOk (avatar_key_for req.user_id) req.form.avatar.bytes = true) :
    get_user_by_id db (payload.lookup "user_id") = none ∧
    create_user_profile v jwt s3 db req =
      (.httpError 401 "User not found or not active.", db,
       [(avatar_key_for req.user_id, req.form.avatar.bytes)]) := by
  have hcu : get_user_by_id db (payload.lookup "user_id") = none := by
    rw [hnone]; exact get_user_by_id_none db
  refine ⟨hcu, ?_⟩
  have himg := validate_image_of_schemaOk v req.form hform
  simp [create_user_profile, as_form, hform, hauth, handler_body, himg, hup, hcu]

/-- C10 witness: the token decoding to claims with only an exp entry gets
the 401 instead of crashing. -/
theorem missing_user_id_claim_yields_401_witness :
    get_current_user_payload wJwt (some "Bearer toknone") = .ok [("exp", 99)] ∧
    create_user_profile specValidators wJwt wS3 wDb
      { authHeader := some "Bearer toknone", user_id := 42, form := wForm } =
      (.httpError 401 "User not found or not active.", wDb,
       [("avatars/42_avatar.jpg", [1, 2, 3])]) := by
  refine ⟨rfl, ?_⟩
  have h := missing_user_id_claim_yields_401 specValidators wJwt wS3 wDb
    { authHeader := some "Bearer toknone", user_id := 42, form := wForm }
    [("exp", 99)] (by decide) (by rfl) (by rfl) (by rfl)
  exact h.2.trans (by decide)

/-- Case analysis of the final database state: either the pipeline left
the session exactly as it was, or it appended one profile row for the
target user, and then no profile for that user existed beforehand and
the commit succeeded. -/
theorem create_user_profile_db_change (v : Validators) (jwt : JWTManager)
    (s3 : S3Client) (db : DB) (req : Request) :
    (create_user_profile v jwt s3 db req).2.1 = db ∨
    (∃ prof : UserProfileModel,
      (create_user_profile v jwt s3 db req).2.1 =
        { db with profiles := db.profiles ++ [prof],
                  nextProfileId := db.nextProfileId + 1 } ∧
      prof.user_id = req.user_id ∧
      db.profiles.find? (fun p => p.user_id == req.user_id) = none ∧
      db.commitOk = true) := by
  cases hf : as_form v req.form with
  | error errs => left; simp [create_user_profile, hf]
  | ok data =>
    cases ha : get_current_user_payload jwt req.authHeader with
    | error e => left; simp [create_user_profile, hf, ha]
    | ok payload =>
      have hred : create_user_profile v jwt s3 db req =
          handler_body v s3 db req data payload := by
        simp [create_user_profile, hf, ha]
      rw [hred]
      cases hi : v.validate_image data.avatar with
      | some m => left; simp [handler_body, hi]
      | none =>
        cases hup : s3.uploadOk (avatar_key_for req.user_id) data.avatar.bytes with
        | false => left; simp [handler_body, hi, hup]
        | true =>
          cases hcu : get_user_by_id db (payload.lookup "user_id") with
          | none => left; simp [handler_body, hi, hup, hcu]
          | some cu =>
            cases hperm : ((payload.lookup "user_id" != some req.user_id)
                && !(cu.group_id == 3)) with
            | true => left; simp [handler_body, hi, hup, hcu, hperm]
            | false =>
              cases hd : db.profiles.find? (fun p => p.user_id == req.user_id) with
              | some p => left; simp [handler_body, hi, hup, hcu, hperm, hd]
              | none =>
                cases ht : get_user_by_id db (some req.user_id) with
                | none => left; simp [handler_body, hi, hup, hcu, hperm, hd, ht]
                | some u =>
                  cases hact : u.is_active with
                  | false => left; simp [handler_body, hi, hup, hcu, hperm, hd, ht, hact]
                  | true =>
                    cases hc : db.commitOk with
                    | false =>
                      left
                      simp [handler_body, hi, hup, hcu, hperm, hd, ht, hact,
                            create_profile, hc]
                    | true =>
                      right
                      refine ⟨{ id := db.nextProfileId, user_id := req.user_id,
                                first_name := pyLower data.first_name,
                                last_name := pyLower data.last_name,
                                gender := data.gender,
                                date_of_birth := data.date_of_birth,
                                info := pyStrip data.info,
                                avatar := avatar_key_for req.user_id }, ?_, rfl, rfl, rfl⟩
                      simp [handler_body, hi, hup, hcu, hperm, hd, ht, hact,
                            create_profile, hc]

/-- C5: at most one profile per user is preserved in sequential
execution.  When a profile for the target user already exists, the
final database equals the initial one (no insert) and — once the
earlier steps pass — the response is the 400; in every run the profile
table is either unchanged or extended by exactly one row for the
target user, inserted only when no row for that user existed (the
endpoint never updates or deletes an existing profile); hence
uniqueness of user_id over the profile table is preserved. -/
theorem profile_uniqueness_invariant (v : Validators) (jwt : JWTManager)
    (s3 : S3Client) (db : DB) (req : Request) :
    ((db.profiles.find? (fun p => p.user_id == req.user_id)).isSome = true →
      (create_user_profile v jwt s3 db req).2.1 = db) ∧
    (∀ payload cu, schemaErrors v req.form = [] →
      get_current_user_payload jwt req.authHeader = .ok payload →
      s3.uploadOk (avatar_key_for req.user_id) req.form.avatar.bytes = true →
      get_user_by_id db (payload.lookup "user_id") = some cu →
      ((payload.lookup "user_id" != some req.user_id) && !(cu.group_id == 3)) = false →
      (db.profiles.find? (fun p => p.user_id == req.user_id)).isSome = true →
      create_user_profile v jwt s3 db req =
        (.httpError 400 "User already has a profile.", db,
         [(avatar_key_for req.user_id, req.form.avatar.bytes)])) ∧
    ((create_user_profile v jwt s3 db req).2.1.profiles = db.profiles ∨
      ∃ prof, (create_user_profile v jwt s3 db req).2.1.profiles = db.profiles ++ [prof] ∧
        prof.user_id = req.user_id ∧
        db.profiles.find? (fun p => p.user_id == req.user_id) = none) ∧
    (List.Pairwise (fun p q => p.user_id ≠ q.user_id) db.profiles →
      List.Pairwise (fun p q => p.user_id ≠ q.user_id)
        (create_user_profile v jwt s3 db req).2.1.profiles) := by
  have hch := create_user_profile_db_change v jwt s3 db req
  refine ⟨?_, ?_, ?_, ?_⟩
  · intro hdup
    rcases hch with h | ⟨prof, heq, hpu, hnone, hc⟩
    · exact h
    · rw [hnone] at hdup; exact absurd hdup (by simp)
  · intro payload cu hform hauth hup hcu hperm hdup
    have himg := validate_image_of_schemaOk v req.form hform
    simp [create_user_profile, as_form, hform, hauth, handler_body, himg, hup, hcu,
          hperm, hdup]
  · rcases hch with h | ⟨prof, heq, hpu, hnone, hc⟩
    · left; rw [h]
    · right; exact ⟨prof, by rw [heq], hpu, hnone⟩
  · intro hpw
    rcases hch with h | ⟨prof, heq, hpu, hnone, hc⟩
    · rw [h]; exact hpw
    · rw [heq]
      refine List.pairwise_append.mpr ⟨hpw, List.pairwise_singleton _ _, ?_⟩
      intro a ha b hb
      have hb2 : b = prof := List.mem_singleton.mp hb
      subst hb2
      have hne := List.find?_eq_none.mp hnone a ha
      simp only [beq_iff_eq] at hne
      rw [hpu]
      exact hne

/-- The profile row already stored for user 42 in the duplicate
scenario. -/
def wProfile42 : UserProfileModel :=
  { id := 1, user_id := 42, first_name := "alice", last_name := "smith",
    gender := "female", date_of_birth := 10000, info := "hello",
    avatar := "avatars/42_avatar.jpg" }

/-- A database in which user 42 already has a profile. -/
def wDbDup : DB :=
  { users := [wUser42, wUser7], profiles := [wProfile42],
    nextProfileId := 2, commitOk := true }

/-- C5 witness: against the database already holding a profile for
user 42, the fully valid request is answered 400 and the database is
unchanged. -/
theorem profile_uniqueness_invariant_witness :
    (wDbDup.profiles.find? (fun p => p.user_id == wReq.user_id)).isSome = true ∧
    create_user_profile specValidators wJwt wS3 wDbDup wReq =
      (.httpError 400 "User already has a profile.", wDbDup,
       [("avatars/42_avatar.jpg", [1, 2, 3])]) := by
  refine ⟨by decide, ?_⟩
  have h := (profile_uniqueness_invariant specValidators wJwt wS3 wDbDup wReq).2.1
    [("user_id", 42)] wUser42 (by decide) (by rfl) (by rfl) (by rfl) (by decide)
    (by decide)
  exact h.trans (by decide)

/-- An inactive non-admin user 7 and an inactive admin user 9, in a
database used to show the acting user's activity flag is never read. -/
def wUser7i : UserModel := { id := 7, is_active := false, group_id := 1 }

/-- The inactive admin of the activity-flag scenarios. -/
def wAdmin9i : UserModel := { id := 9, is_active := false, group_id := 3 }

/-- Database for the activity-flag scenarios: the target user 42 is
active, the two possible acting users are inactive. -/
def wDb8 : DB :=
  { users := [wUser42, wUser7i, wAdmin9i], profiles := [],
    nextProfileId := 1, commitOk := true }

/-- C8: the acting user's is_active flag is never consulted.  A token
resolving to an existing but inactive acting user is not rejected for
inactivity: the request reaches the authorization step, yielding the
403 when the acting user is neither the target nor an admin, and
running the remaining pipeline to a successful creation when the acting
user is an inactive admin (only the target user's own is_active flag is
tested, at the later target-resolution step). -/
theorem acting_user_inactivity_not_checked (v : Validators) (jwt : JWTManager)
    (s3 : S3Client) (db : DB) (req : Request) (payload : List (String × Int))
    (cu : UserModel)
    (hform : schemaErrors v req.form = [])
    (hauth : get_current_user_payload jwt req.authHeader = .ok payload)
    (hup : s3.uploadOk (avatar_key_for req.user_id) req.form.avatar.bytes = true)
    (hcu : get_user_by_id db (payload.lookup "user_id") = some cu)
    (hinact : cu.is_active = false) :
    (((payload.lookup "user_id" != some req.user_id) && !(cu.group_id == 3)) = true →
      create_user_profile v jwt s3 db req =
        (.httpError 403 "You don\x27t have permission to edit this profile.", db,
         [(avatar_key_for req.user_id, req.form.avatar.bytes)])) ∧
    (∀ u, ((payload.lookup "user_id" != some req.user_id) && !(cu.group_id == 3)) = false →
      db.profiles.find? (fun p => p.user_id == req.user_id) = none →
      get_user_by_id db (some req.user_id) = some u →
      u.is_active = true →
      db.commitOk = true →
      create_user_profile v jwt s3 db req =
        (.created { id := db.nextProfileId, user_id := req.user_id,
                    first_name := pyLower req.form.first_name,
                    last_name := pyLower req.form.last_name,
                    gender := req.form.gender,
                    date_of_birth := req.form.date_of_birth,
                    info := pyStrip req.form.info,
                    avatar := s3.get_file_url (avatar_key_for req.user_id) },
         { db with profiles := db.profiles ++
                     [{ id := db.nextProfileId, user_id := req.user_id,
                        first_name := pyLower req.form.first_name,
                        last_name := pyLower req.form.last_name,
                        gender := req.form.gender,
                        date_of_birth := req.form.date_of_birth,
                        info := pyStrip req.form.info,
                        avatar := avatar_key_for req.user_id }],
                   nextProfileId := db.nextProfileId + 1 },
         [(avatar_key_for req.user_id, req.form.avatar.bytes)])) := by
  have himg := validate_image_of_schemaOk v req.form hform
  constructor
  · intro hperm
    simp [create_user_profile, as_form, hform, hauth, handler_body, himg, hup, hcu, hperm]
  · intro u hperm hdup htgt hact hcommit
    simp [create_user_profile, as_form, hform, hauth, handler_body, himg, hup, hcu, hperm,
          hdup, htgt, hact, create_profile, hcommit]

/-- C8 witness: the inactive non-admin user 7 acting on user 42 still
receives the 403, and the inactive admin user 9 successfully creates
user 42's profile. -/
theorem acting_user_inactivity_not_checked_witness :
    wUser7i.is_active = false ∧
    wAdmin9i.is_active = false ∧
    create_user_profile specValidators wJwt wS3 wDb8
      { authHeader := some "Bearer tokseven", user_id := 42, form := wForm } =
      (.httpError 403 "You don\x27t have permission to edit this profile.", wDb8,
       [("avatars/42_avatar.jpg", [1, 2, 3])]) ∧
    create_user_profile specValidators wJwt wS3 wDb8
      { authHeader := some "Bearer toknine", user_id := 42, form := wForm } =
      (.created { id := 1, user_id := 42, first_name := "alice", last_name := "smith",
                  gender := "female", date_of_birth := 10000, info := "hello",
                  avatar := "https://cdn.example.test/avatars/42_avatar.jpg" },
       { users := [wUser42, wUser7i, wAdmin9i],
         profiles := [{ id := 1, user_id := 42, first_name := "alice",
                        last_name := "smith", gender := "female",
                        date_of_birth := 10000, info := "hello",
                        avatar := "avatars/42_avatar.jpg" }],
         nextProfileId := 2, commitOk := true },
       [("avatars/42_avatar.jpg", [1, 2, 3])]) := by
  refine ⟨rfl, rfl, ?_, ?_⟩
  · have h := (acting_user_inactivity_not_checked specValidators wJwt wS3 wDb8
      { authHeader := some "Bearer tokseven", user_id := 42, form := wForm }
      [("user_id", 7)] wUser7i (by decide) (by rfl) (by rfl) (by rfl) (by rfl)).1
      (by decide)
    exact h.trans (by decide)
  · have h := (acting_user_inactivity_not_checked specValidators wJwt wS3 wDb8
      { authHeader := some "Bearer toknine", user_id := 42, form := wForm }
      [("user_id", 9)] wAdmin9i (by decide) (by rfl) (by rfl) (by rfl) (by rfl)).2
      wUser42 (by decide) (by rfl) (by rfl) (by rfl) (by rfl)
    exact h.trans (by decide)

end ProfileApp

